import Mathlib

/-!
Verification of the response-validation core of the kherock/oidc-client
repository (src/ResponseValidator.ts and src/MetadataService.ts).

The TypeScript code is shallowly embedded: the untyped JSON values that the
JavaScript code manipulates become the inductive type `JsonVal`; JavaScript
truthiness, strict equality (`===`), `Object.assign`, `parseInt`, `substr`
and friends are modelled explicitly; the external collaborators of spec §6
(JSON fetcher, token-exchange client, user-info client, JWT primitives) are
oracle functions collected in a `Collab` record; network effects are made
observable through an explicit trace of `NetCall` events and the mutable
caches of `MetadataService` through an explicit `MetaState` that every
operation threads and returns.
-/

set_option maxHeartbeats 1600000

namespace Oidc

/-- A JSON-like value as manipulated by the untyped JavaScript code. -/
inductive JsonVal : Type where
  | str (s : String)
  | num (n : Int)
  | bool (b : Bool)
  | null
  | arr (elems : List JsonVal)
  | obj (fields : List (String × JsonVal))

/-- An object's ordered field list (JS objects preserve insertion order for
string keys). -/
abbrev JsonObj := List (String × JsonVal)

namespace JsonVal

/-- JavaScript truthiness of a defined value. -/
def truthy : JsonVal → Bool
  | .str s => s != ""
  | .num n => n != 0
  | .bool b => b
  | .null => false
  | .arr _ => true
  | .obj _ => true

/-- JavaScript truthiness of a possibly-undefined value (undefined is falsy). -/
def truthyU : Option JsonVal → Bool
  | none => false
  | some v => v.truthy

/-- JavaScript strict equality (`===`) restricted to the values that arise in
this code: primitive values compare structurally; composite values taken from
distinct parses are distinct heap objects, hence never strictly equal. -/
def strictEq : JsonVal → JsonVal → Bool
  | .str a, .str b => a == b
  | .num a, .num b => a == b
  | .bool a, .bool b => a == b
  | .null, .null => true
  | _, _ => false

/-- Strict equality on possibly-undefined operands
(undefined === undefined is true). -/
def strictEqU : Option JsonVal → Option JsonVal → Bool
  | none, none => true
  | some a, some b => strictEq a b
  | _, _ => false

/-- The `typeof x === "object"` test: true for objects, arrays and null. -/
def isObjectType : JsonVal → Bool
  | .obj _ => true
  | .arr _ => true
  | .null => true
  | _ => false

/-- The `.length` property: defined for strings and arrays only. -/
def jsLength : Option JsonVal → Option Nat
  | some (.str s) => some s.length
  | some (.arr xs) => some xs.length
  | _ => none

/-- JavaScript ToString coercion for the primitive values that reach URL
positions (array join / object stringification are never exercised here). -/
def jsToStr : JsonVal → String
  | .str s => s
  | .num n => toString n
  | .bool b => Bool.rec "false" "true" b
  | .null => "null"
  | .arr _ => ""
  | .obj _ => "[object Object]"

end JsonVal

/-- Truthiness of a possibly-undefined string (empty string is falsy). -/
def truthyS : Option String → Bool
  | none => false
  | some s => s != ""

/-- First operand of `a || b` for string-valued fields wins when truthy. -/
def jsOrS (a b : Option String) : Option String :=
  if truthyS a then a else b

/-- Lookup of `l[name]` in an ordered field list (first binding wins; a JS
object holds at most one binding per key). -/
def lookupField : JsonObj → String → Option JsonVal
  | [], _ => none
  | (k, v) :: rest, name => if k == name then some v else lookupField rest name

/-- Assignment `l[k] = v`: replace the binding in place when the key exists,
append it otherwise. -/
def setField : JsonObj → String → JsonVal → JsonObj
  | [], k, v => [(k, v)]
  | (k', v') :: rest, k, v =>
    if k' == k then (k', v) :: rest else (k', v') :: setField rest k v

/-- `Object.assign(target, source)`: copy the source's fields into the target
in order. -/
def jsAssign (target source : JsonObj) : JsonObj :=
  source.foldl (fun acc kv => setField acc kv.1 kv.2) target

/-- The field list over which `for (name in x)` and `Object.assign` iterate.
Primitive values contribute nothing; index-keyed iteration over arrays is not
exercised by the claims and is modelled as empty. -/
def toFields : JsonVal → JsonObj
  | .obj fs => fs
  | _ => []

/-- Normalisation `Array.isArray(v) ? v : [v]` used by the claim merge. -/
def toValues : JsonVal → List JsonVal
  | .arr xs => xs
  | v => [v]

/-- The `s.startsWith(pre)` test, by leading characters. -/
def strStartsWith (s pre : String) : Bool :=
  s.toList.take pre.toList.length == pre.toList

/-- The `s.substr(start, len)` operation on strings. -/
def jsSubstr (s : String) (start len : Nat) : String :=
  String.mk ((s.toList.drop start).take len)

/-- Numeric value of a hexadecimal digit character, if any. -/
def hexDigit? (c : Char) : Option Nat :=
  if '0' ≤ c ∧ c ≤ '9' then some (c.toNat - '0'.toNat)
  else if 'a' ≤ c ∧ c ≤ 'f' then some (c.toNat - 'a'.toNat + 10)
  else if 'A' ≤ c ∧ c ≤ 'F' then some (c.toNat - 'A'.toNat + 10)
  else none

/-- Values of the longest leading run of digits valid in the given base. -/
def digitVals (base : Nat) : List Char → List Nat
  | [] => []
  | c :: rest =>
    match hexDigit? c with
    | some d => if d < base then d :: digitVals base rest else []
    | none => []

/-- JavaScript `parseInt(s)` with the radix unspecified: skip leading
whitespace, read an optional sign and an optional 0x/0X prefix, parse the
longest run of digits, ignore the rest; `none` models NaN. -/
def parseIntJS (s : String) : Option Int :=
  let cs := s.toList.dropWhile (fun c => c == ' ' || c == '\t' || c == '\n' || c == '\r')
  let (neg, cs) : Bool × List Char :=
    match cs with
    | '-' :: rest => (true, rest)
    | '+' :: rest => (false, rest)
    | _ => (false, cs)
  let (base, cs) : Nat × List Char :=
    match cs with
    | '0' :: 'x' :: rest => (16, rest)
    | '0' :: 'X' :: rest => (16, rest)
    | _ => (10, cs)
  match digitVals base cs with
  | [] => none
  | ds =>
    let n : Nat := ds.foldl (fun acc d => acc * base + d) 0
    some (if neg then -(n : Int) else (n : Int))

/-! ## Data model

The state/response/settings classes themselves (SigninState, SigninResponse,
State, SignoutResponse, OidcClientSettings) are not part of the sources under
verification; their records below are modelled from the spec's data model
(§3, §6), with JS `undefined` rendered as `Option.none`. -/

/-- Modelled from the spec: the read-only configuration store (§6), covering
exactly the settings the two source files read. -/
structure OidcClientSettingsStore where
  authority : Option String
  metadataUrl : Option String
  metadata : Option JsonObj
  metadataSeed : Option JsonObj
  signingKeys : Option (List JsonVal)
  client_id : Option String
  client_secret : Option String
  clockSkewInSeconds : Int
  filterProtocolClaims : Bool
  loadUserInfo : Bool
  mergeClaims : Bool

/-- Modelled from the spec: the Request State record for sign-in (§3). -/
structure SigninState where
  id : String
  data : Option JsonVal
  client_id : Option String
  authority : Option String
  nonce : Option String
  code_verifier : Option String
  redirect_uri : Option String
  scope : Option String
  client_secret : Option String
  extraTokenParams : Option JsonObj
  skipUserInfo : Option Bool

/-- Modelled from the spec: the minimal sign-out Request State record (§3). -/
structure State where
  id : String
  data : Option JsonVal

/-- Modelled from the spec: the Callback Response accumulator for sign-in
(§3). `state` starts as the correlation value parsed from the redirect URL
and is overwritten with the request state's opaque `data`. -/
structure SigninResponse where
  state : Option JsonVal
  error : Option String
  error_description : Option String
  error_uri : Option String
  code : Option String
  id_token : Option String
  access_token : Option String
  token_type : Option String
  session_state : Option String
  scope : Option String
  expires_in : Option Int
  profile : Option JsonVal

/-- Modelled from the spec: the sign-out Callback Response record (§3). -/
structure SignoutResponse where
  state : Option JsonVal
  error : Option String
  error_description : Option String
  error_uri : Option String

/-- Modelled from the spec: a response carries an OpenID-Connect identity
assertion (§4.2 stage 4); the `isOpenIdConnect` getter lives outside the
sources under verification. -/
def SigninResponse.isOpenIdConnect (r : SigninResponse) : Bool :=
  truthyS r.id_token

/-- Modelled from the spec: the token-endpoint exchange result (§6). -/
structure TokenExchangeResponse where
  error : Option String
  error_description : Option String
  error_uri : Option String
  id_token : Option String
  session_state : Option String
  access_token : Option String
  token_type : Option String
  scope : Option String
  expires_in : Option String

/-- A parsed compact JWT as returned by the JoseUtil collaborator (§6). -/
structure Jwt where
  header : JsonVal
  payload : JsonVal

/-- One observable network interaction of the pipeline: a metadata/key-set
JSON fetch, a token-endpoint exchange, or a user-info fetch. -/
inductive NetCall : Type where
  | getJson (url : String)
  | exchangeCode
  | getClaims (access_token : String)

/-- The external collaborators of spec §6 as oracle functions: JSON fetcher,
token-exchange client, user-info client, the JWT primitives and the clock. -/
structure Collab where
  getJson : String → Except String JsonVal
  exchangeCode : List (String × Option JsonVal) → Except String TokenExchangeResponse
  getClaims : String → Except String JsonVal
  parseJwt : String → Option Jwt
  validateJwtAttributes : String → JsonVal → Option String → Int → Int → Except String JsonVal
  validateJwt : String → JsonVal → JsonVal → Option String → Int → Except String Unit
  hashString : String → String → String
  hexToBase64Url : String → String
  now : Int

/-! ## MetadataService (src/MetadataService.ts) -/

/-- The well-known discovery-document path appended to an authority. -/
def OidcMetadataUrlPath : String := ".well-known/openid-configuration"

/-- The three mutable cache slots of a `MetadataService` instance. -/
structure MetaState where
  metadataUrl : Option String
  metadata : Option JsonObj
  signingKeys : Option (List JsonVal)

/-- The `MetadataService` constructor: derive the metadata URL from
`metadataUrl` or from `authority` (appending the well-known path, inserting a
separating slash when absent) and seed the caches from static settings. -/
def MetadataService.init (settings : OidcClientSettingsStore) : MetaState :=
  let metadataUrl : Option String :=
    if truthyS settings.metadataUrl then settings.metadataUrl
    else if truthyS settings.authority then
      let a := settings.authority.getD ""
      some (if a.toList.getLast? == some '/' then a ++ OidcMetadataUrlPath
            else a ++ "/" ++ OidcMetadataUrlPath)
    else none
  { metadataUrl := metadataUrl
    metadata := settings.metadata
    signingKeys := settings.signingKeys }

/-- `MetadataService.resetSigningKeys`: invalidate only the key cache. -/
def resetSigningKeys (ms : MetaState) : MetaState :=
  { ms with signingKeys := none }

/-- `MetadataService.getMetadata`: cached document if present, else fetch the
resolved URL and cache `Object.assign({}, metadataSeed || {}, fetched)`. -/
def getMetadata (settings : OidcClientSettingsStore) (c : Collab) (ms : MetaState) :
    Except String JsonObj × MetaState × List NetCall :=
  match ms.metadata with
  | some m => (.ok m, ms, [])
  | none =>
    match ms.metadataUrl with
    | none => (.error "No authority or metadataUrl configured on settings", ms, [])
    | some url =>
      if url == "" then
        (.error "No authority or metadataUrl configured on settings", ms, [])
      else
        match c.getJson url with
        | .error e => (.error e, ms, [.getJson url])
        | .ok j =>
          let seed := settings.metadataSeed.getD []
          let m := jsAssign (jsAssign [] seed) (toFields j)
          (.ok m, { ms with metadata := some m }, [.getJson url])

/-- `MetadataService._getMetadataProperty`: read through `getMetadata`; an
absent property yields undefined when optional and fails otherwise. -/
def _getMetadataProperty (settings : OidcClientSettingsStore) (c : Collab)
    (ms : MetaState) (name : String) (optional : Bool) :
    Except String (Option JsonVal) × MetaState × List NetCall :=
  match getMetadata settings c ms with
  | (.error e, ms', tr) => (.error e, ms', tr)
  | (.ok m, ms', tr) =>
    match lookupField m name with
    | none =>
      if optional then (.ok none, ms', tr)
      else (.error ("Metadata does not contain property " ++ name), ms', tr)
    | some v => (.ok (some v), ms', tr)

/-- `MetadataService.getIssuer`: the mandatory `issuer` property. The
`.ok none` branch cannot occur for a mandatory property and is mapped to the
same failure for totality. -/
def getIssuer (settings : OidcClientSettingsStore) (c : Collab) (ms : MetaState) :
    Except String JsonVal × MetaState × List NetCall :=
  match _getMetadataProperty settings c ms "issuer" false with
  | (.ok (some v), ms', tr) => (.ok v, ms', tr)
  | (.ok none, ms', tr) => (.error "Metadata does not contain property issuer", ms', tr)
  | (.error e, ms', tr) => (.error e, ms', tr)

/-- Coerce the `keys` member of a fetched key set to an array of keys. The
code stores it untyped and later filters it; a truthy non-array value (which
would only fail later in JS) is modelled as an empty key list. -/
def asArr : JsonVal → List JsonVal
  | .arr xs => xs
  | _ => []

/-- `MetadataService.getSigningKeys`: cached keys if present; otherwise fetch
the mandatory `jwks_uri`, require a `keys` member and cache it. -/
def getSigningKeys (settings : OidcClientSettingsStore) (c : Collab) (ms : MetaState) :
    Except String (List JsonVal) × MetaState × List NetCall :=
  match ms.signingKeys with
  | some ks => (.ok ks, ms, [])
  | none =>
    match _getMetadataProperty settings c ms "jwks_uri" false with
    | (.error e, ms', tr) => (.error e, ms', tr)
    | (.ok none, ms', tr) => (.error "Metadata does not contain property jwks_uri", ms', tr)
    | (.ok (some uriV), ms', tr) =>
      let uri := uriV.jsToStr
      match c.getJson uri with
      | .error e => (.error e, ms', tr ++ [.getJson uri])
      | .ok keySet =>
        let keysV := lookupField (toFields keySet) "keys"
        if JsonVal.truthyU keysV = false then
          (.error "Missing keys on keyset", ms', tr ++ [.getJson uri])
        else
          let ks := asArr (keysV.getD .null)
          (.ok ks, { ms' with signingKeys := some ks }, tr ++ [.getJson uri])

/-! ## ResponseValidator (src/ResponseValidator.ts) -/

/-- Claim names stripped from a profile when claim filtering is enabled. -/
def ProtocolClaims : List String :=
  ["nonce", "at_hash", "iat", "nbf", "exp", "aud", "iss", "c_hash"]

/-- A failure escaping a sign-in validation call. `thrown` models
`throw new Error(msg)`; `errResponse` models `throw new ErrorResponse(response)`
(the ErrorResponse class is outside the sources and is modelled from the spec
as a structured error wrapping the response). Both carry the caller-visible
response object as it stood when the failure was raised, so the effect of the
in-place mutations performed before the throw remains observable. -/
inductive SigninFail : Type where
  | thrown (msg : String) (resp : SigninResponse)
  | errResponse (resp : SigninResponse)

/-- The response carried by a sign-in failure. -/
def SigninFail.resp : SigninFail → SigninResponse
  | .thrown _ r => r
  | .errResponse r => r

/-- A failure escaping a sign-out validation call. -/
inductive SignoutFail : Type where
  | thrown (msg : String) (resp : SignoutResponse)
  | errResponse (resp : SignoutResponse)

/-- The response carried by a sign-out failure. -/
def SignoutFail.resp : SignoutFail → SignoutResponse
  | .thrown _ r => r
  | .errResponse r => r

/-- Result of an asynchronous validator stage: the outcome, the metadata
cache state after the stage, and the network calls it issued in order. -/
abbrev VRes (α : Type) := Except SigninFail α × MetaState × List NetCall

/-- `ResponseValidator.validateSignoutResponse`: correlate the response to
the stored state, copy the opaque `data` and surface an in-band error as a
structured error result. This path performs no network calls. -/
def validateSignoutResponse (state : State) (response : SignoutResponse) :
    Except SignoutFail SignoutResponse :=
  if JsonVal.strictEqU (some (.str state.id)) response.state = false then
    .error (.thrown "State does not match" response)
  else
    let response := { response with state := state.data }
    if truthyS response.error then
      .error (.errResponse response)
    else
      .ok response

/-- `ResponseValidator._processSigninParams`: correlation, consistency checks
between settings and state, copy of the opaque `data`, in-band error
surfacing, the nonce/id_token and code_verifier/code presence laws, and the
scope default. Synchronous: no network access. -/
def _processSigninParams (settings : OidcClientSettingsStore)
    (state : SigninState) (response : SigninResponse) :
    Except SigninFail SigninResponse :=
  if JsonVal.strictEqU (some (.str state.id)) response.state = false then
    .error (.thrown "State does not match" response)
  else if truthyS state.client_id = false then
    .error (.thrown "No client_id on state" response)
  else if truthyS state.authority = false then
    .error (.thrown "No authority on state" response)
  else if settings.authority != state.authority then
    .error (.thrown "authority mismatch on settings vs. signin state" response)
  else if truthyS settings.client_id && settings.client_id != state.client_id then
    .error (.thrown "client_id mismatch on settings vs. signin state" response)
  else
    let response := { response with state := state.data }
    if truthyS response.error then
      .error (.errResponse response)
    else if truthyS state.nonce && !truthyS response.id_token then
      .error (.thrown "No id_token in response" response)
    else if !truthyS state.nonce && truthyS response.id_token then
      .error (.thrown "Unexpected id_token in response" response)
    else if truthyS state.code_verifier && !truthyS response.code then
      .error (.thrown "No code in response" response)
    else if !truthyS state.code_verifier && truthyS response.code then
      .error (.thrown "Unexpected code in response" response)
    else if truthyS response.scope = false then
      .ok { response with scope := state.scope }
    else
      .ok response

/-! Size measures used only to justify termination of the claim merge. -/

mutual
/-- Size of a JSON value. -/
def valSize : JsonVal → Nat
  | .str _ => 1
  | .num _ => 1
  | .bool _ => 1
  | .null => 1
  | .arr xs => 1 + valsSize xs
  | .obj fs => 1 + fieldsSize fs

/-- Size of a list of JSON values. -/
def valsSize : List JsonVal → Nat
  | [] => 0
  | v :: rest => 1 + valSize v + valsSize rest

/-- Size of a field list. -/
def fieldsSize : JsonObj → Nat
  | [] => 0
  | (_, v) :: rest => 1 + valSize v + fieldsSize rest
end

/-! The claim-merge algorithm `_mergeClaims` (second claim set merged into the
first). The JS nested loops become a mutual recursion: `mergeFields` iterates
the second set's fields, `mergeValues` the normalised value sequence of one
field, and `mergeEntry` folds a single element into the accumulator. -/

mutual
/-- `ResponseValidator._mergeClaims`: start from a shallow copy of the first
claim set and fold every element of the second set into it. -/
def _mergeClaims (mc : Bool) (claims1 claims2 : JsonObj) : JsonObj :=
  mergeFields mc (jsAssign [] claims1) claims2
termination_by 4 * fieldsSize claims2 + 3
decreasing_by
  omega

/-- The outer `for (const name in claims2)` loop. -/
def mergeFields (mc : Bool) (result : JsonObj) : JsonObj → JsonObj
  | [] => result
  | (name, v) :: rest => mergeFields mc (mergeValues mc result name (toValues v)) rest
termination_by l => 4 * fieldsSize l + 2
decreasing_by
  all_goals
    (have h : valsSize (toValues v) ≤ 1 + valSize v := by
      cases v <;> (simp [toValues, valsSize, valSize]; try omega)
     simp [fieldsSize]; try omega)

/-- The inner loop over the normalised value sequence of one claim name. -/
def mergeValues (mc : Bool) (result : JsonObj) (name : String) : List JsonVal → JsonObj
  | [] => result
  | value :: vs => mergeValues mc (mergeEntry mc result name value) name vs
termination_by l => 4 * valsSize l + 1
decreasing_by
  all_goals (simp [valsSize]; try omega)

/-- One element folded into the accumulator: a falsy existing entry is
overwritten; a sequence-valued entry appends the element unless strictly
equal to a member; a differing scalar either deep-merges (composite element,
merge enabled) or combines into a 2-element sequence. -/
def mergeEntry (mc : Bool) (result : JsonObj) (name : String) (value : JsonVal) : JsonObj :=
  match lookupField result name with
  | none => setField result name value
  | some existing =>
    if existing.truthy = false then setField result name value
    else
      match existing with
      | .arr xs =>
        if xs.any (fun x => JsonVal.strictEq x value) then result
        else setField result name (.arr (xs ++ [value]))
      | _ =>
        if JsonVal.strictEq existing value then result
        else if value.isObjectType && mc then
          setField result name (.obj (_mergeClaims mc (toFields existing) (toFields value)))
        else
          setField result name (.arr [existing, value])
termination_by 4 * valSize value
decreasing_by
  have h : fieldsSize (toFields value) + 1 ≤ valSize value := by
    cases value <;> (simp [toFields, fieldsSize, valSize]; try omega)
  omega
end

/-- `ResponseValidator._filterProtocolClaims`: shallow-copy the claims and,
when filtering is enabled, delete the protocol claim names. -/
def _filterProtocolClaims (settings : OidcClientSettingsStore)
    (claims : Option JsonVal) : JsonObj :=
  let result := jsAssign [] (toFields (claims.getD .null))
  if settings.filterProtocolClaims then
    result.filter (fun kv => !(ProtocolClaims.contains kv.1))
  else
    result

/-- `ResponseValidator._processClaims`: on an OIDC response, filter the
profile's protocol claims and, when user info loading applies, fetch the
user-info claims, require a matching `sub` and merge the claim sets. -/
def _processClaims (settings : OidcClientSettingsStore) (c : Collab)
    (state : SigninState) (response : SigninResponse) (ms : MetaState) :
    VRes SigninResponse :=
  if response.isOpenIdConnect then
    let response := { response with
      profile := some (.obj (_filterProtocolClaims settings response.profile)) }
    if state.skipUserInfo != some true && settings.loadUserInfo
        && truthyS response.access_token then
      let at_ := response.access_token.getD ""
      match c.getClaims at_ with
      | .error e => (.error (.thrown e response), ms, [.getClaims at_])
      | .ok claims =>
        if JsonVal.strictEqU (lookupField (toFields claims) "sub")
            (lookupField (toFields (response.profile.getD .null)) "sub") = false then
          (.error (.thrown "sub from user info endpoint does not match sub in id_token"
            response), ms, [.getClaims at_])
        else
          let response := { response with
            profile := some (.obj (_mergeClaims settings.mergeClaims
              (toFields (response.profile.getD .null)) (toFields claims))) }
          (.ok response, ms, [.getClaims at_])
    else
      (.ok response, ms, [])
  else
    (.ok response, ms, [])

/-- The field-by-field fold of a token-exchange result into the response
(`ResponseValidator._processCode`, merge section): `||`-style
first-non-empty-wins for the string fields; `expires_in` is parsed with
`parseInt` and overwrites only when the parse is truthy (nonzero, non-NaN). -/
def foldTokenResponse (tokenResponse : TokenExchangeResponse)
    (response : SigninResponse) : SigninResponse :=
  { response with
    error := jsOrS tokenResponse.error response.error
    error_description := jsOrS tokenResponse.error_description response.error_description
    error_uri := jsOrS tokenResponse.error_uri response.error_uri
    id_token := jsOrS tokenResponse.id_token response.id_token
    session_state := jsOrS tokenResponse.session_state response.session_state
    access_token := jsOrS tokenResponse.access_token response.access_token
    token_type := jsOrS tokenResponse.token_type response.token_type
    scope := jsOrS tokenResponse.scope response.scope
    expires_in :=
      match tokenResponse.expires_in with
      | none => response.expires_in
      | some s =>
        match parseIntJS s with
        | some n => if n != 0 then some n else response.expires_in
        | none => response.expires_in }

/-- `ResponseValidator._validateIdTokenAttributes`: attribute-only validation
of an id_token obtained from the code exchange (no signature check). -/
def _validateIdTokenAttributes (settings : OidcClientSettingsStore) (c : Collab)
    (state : SigninState) (response : SigninResponse) (id_token : String)
    (ms : MetaState) : VRes SigninResponse :=
  match getIssuer settings c ms with
  | (.error e, ms', tr) => (.error (.thrown e response), ms', tr)
  | (.ok issuer, ms', tr) =>
    match c.validateJwtAttributes id_token issuer state.client_id
        settings.clockSkewInSeconds c.now with
    | .error e => (.error (.thrown e response), ms', tr)
    | .ok payload =>
      if truthyS state.nonce &&
          !(JsonVal.strictEqU (state.nonce.map .str)
            (lookupField (toFields payload) "nonce")) then
        (.error (.thrown "Invalid nonce in id_token" response), ms', tr)
      else if JsonVal.truthyU (lookupField (toFields payload) "sub") = false then
        (.error (.thrown "No sub present in id_token" response), ms', tr)
      else
        (.ok { response with profile := some payload }, ms', tr)

/-- `ResponseValidator._processCode`: build the token-exchange request
(including `code_verifier || ""` and any extra parameters from state), call
the token client, fold the result into the response and, when the folded
response carries an id_token, validate its attributes. -/
def _processCode (settings : OidcClientSettingsStore) (c : Collab)
    (state : SigninState) (response : SigninResponse) (ms : MetaState) :
    VRes SigninResponse :=
  let base : List (String × Option JsonVal) :=
    [("client_id", state.client_id.map .str),
     ("client_secret", state.client_secret.map .str),
     ("code", response.code.map .str),
     ("redirect_uri", state.redirect_uri.map .str),
     ("code_verifier", some (.str (state.code_verifier.getD "")))]
  let request : List (String × Option JsonVal) :=
    match state.extraTokenParams with
    | some ps => ps.foldl (fun acc kv =>
        if acc.any (fun kv' => kv'.1 == kv.1) then
          acc.map (fun kv' => if kv'.1 == kv.1 then (kv'.1, some kv.2) else kv')
        else acc ++ [(kv.1, some kv.2)]) base
    | none => base
  match c.exchangeCode request with
  | .error e => (.error (.thrown e response), ms, [.exchangeCode])
  | .ok tokenResponse =>
    let response := foldTokenResponse tokenResponse response
    if truthyS response.id_token then
      let out := _validateIdTokenAttributes settings c state response
        (response.id_token.getD "") ms
      (out.1, out.2.1, .exchangeCode :: out.2.2)
    else
      (.ok response, ms, [.exchangeCode])

/-- `ResponseValidator._filterByAlg`: infer the key type from the signing
algorithm family (RS→RSA, PS→PS, ES→EC, otherwise unsupported) and keep the
keys whose `kty` strictly equals it. -/
def _filterByAlg (keys : List JsonVal) (alg : String) : List JsonVal :=
  let kty? : Option String :=
    if strStartsWith alg "RS" then some "RSA"
    else if strStartsWith alg "PS" then some "PS"
    else if strStartsWith alg "ES" then some "EC"
    else none
  match kty? with
  | none => []
  | some kty =>
    keys.filter (fun k =>
      JsonVal.strictEqU (lookupField (toFields k) "kty") (some (.str kty)))

/-- `ResponseValidator._getSigningKeyForJwt`: fetch (or reuse) the signing
keys; a truthy header `kid` selects the first key with that `kid` (none when
absent); without a `kid`, filter by algorithm family and resolve only when
exactly one key remains. The `if (!keys)` null-check in the source is
unreachable (both branches of getSigningKeys produce an array) and is not
modelled; a non-string header `alg` would raise a TypeError in JS and is
modelled as a thrown error. -/
def _getSigningKeyForJwt (settings : OidcClientSettingsStore) (c : Collab)
    (jwt : Jwt) (ms : MetaState) :
    Except String (Option JsonVal) × MetaState × List NetCall :=
  match getSigningKeys settings c ms with
  | (.error e, ms', tr) => (.error e, ms', tr)
  | (.ok keys, ms', tr) =>
    let kid := lookupField (toFields jwt.header) "kid"
    if JsonVal.truthyU kid then
      (.ok (keys.filter (fun k =>
        JsonVal.strictEqU (lookupField (toFields k) "kid") kid)).head?, ms', tr)
    else
      match lookupField (toFields jwt.header) "alg" with
      | some (.str alg) =>
        match _filterByAlg keys alg with
        | [k] => (.ok (some k), ms', tr)
        | _ => (.ok none, ms', tr)
      | _ => (.error "TypeError: alg is not a string", ms', tr)

/-- `ResponseValidator._getSigningKeyForJwtWithSingleRetry`: when no key
resolves, invalidate the signing-key cache and retry resolution exactly
once. -/
def _getSigningKeyForJwtWithSingleRetry (settings : OidcClientSettingsStore)
    (c : Collab) (jwt : Jwt) (ms : MetaState) :
    Except String (Option JsonVal) × MetaState × List NetCall :=
  match _getSigningKeyForJwt settings c jwt ms with
  | (.error e, ms', tr) => (.error e, ms', tr)
  | (.ok (some k), ms', tr) => (.ok (some k), ms', tr)
  | (.ok none, ms', tr) =>
    match _getSigningKeyForJwt settings c jwt (resetSigningKeys ms') with
    | (.error e, ms'', tr2) => (.error e, ms'', tr ++ tr2)
    | (.ok r, ms'', tr2) => (.ok r, ms'', tr ++ tr2)

/-- `ResponseValidator._validateIdToken`: full cryptographic validation of an
id_token — nonce required and matched, JWT parsed, issuer obtained, signing
key resolved with a single retry, signature and attributes verified, `sub`
required, profile set. -/
def _validateIdToken (settings : OidcClientSettingsStore) (c : Collab)
    (state : SigninState) (response : SigninResponse) (id_token : String)
    (ms : MetaState) : VRes SigninResponse :=
  if truthyS state.nonce = false then
    (.error (.thrown "No nonce on state" response), ms, [])
  else
    match c.parseJwt id_token with
    | none => (.error (.thrown "Failed to parse id_token" response), ms, [])
    | some jwt =>
      if !(jwt.header.truthy && jwt.payload.truthy) then
        (.error (.thrown "Failed to parse id_token" response), ms, [])
      else
        let payload := jwt.payload
        if JsonVal.strictEqU (state.nonce.map .str)
            (lookupField (toFields payload) "nonce") = false then
          (.error (.thrown "Invalid nonce in id_token" response), ms, [])
        else
          match getIssuer settings c ms with
          | (.error e, ms1, tr1) => (.error (.thrown e response), ms1, tr1)
          | (.ok issuer, ms1, tr1) =>
            match _getSigningKeyForJwtWithSingleRetry settings c jwt ms1 with
            | (.error e, ms2, tr2) => (.error (.thrown e response), ms2, tr1 ++ tr2)
            | (.ok none, ms2, tr2) =>
              (.error (.thrown "No key matching kid or alg found in signing keys"
                response), ms2, tr1 ++ tr2)
            | (.ok (some key), ms2, tr2) =>
              match c.validateJwt id_token key issuer state.client_id
                  settings.clockSkewInSeconds with
              | .error e => (.error (.thrown e response), ms2, tr1 ++ tr2)
              | .ok _ =>
                if JsonVal.truthyU (lookupField (toFields payload) "sub") = false then
                  (.error (.thrown "No sub present in id_token" response), ms2, tr1 ++ tr2)
                else
                  (.ok { response with profile := some payload }, ms2, tr1 ++ tr2)

/-- `ResponseValidator._validateAccessToken`: require a profile with a truthy
`at_hash` and an id_token; re-parse the id_token; require a 5-character
header `alg`; extract its trailing 3 characters and `parseInt` them,
accepting only 256/384/512; hash the access token with the matching sha,
take the left half of the hex digest, base64url-encode it and require strict
equality with the `at_hash` claim. A non-string 5-long `alg` (an array)
would raise a TypeError at `substr` in JS and is modelled as a thrown
error. -/
def _validateAccessToken (c : Collab) (response : SigninResponse)
    (access_token : String) : Except SigninFail SigninResponse :=
  if JsonVal.truthyU response.profile = false then
    .error (.thrown "No profile loaded from id_token" response)
  else
    let at_hash := lookupField (toFields (response.profile.getD .null)) "at_hash"
    if JsonVal.truthyU at_hash = false then
      .error (.thrown "No at_hash in id_token" response)
    else if truthyS response.id_token = false then
      .error (.thrown "No id_token" response)
    else
      match c.parseJwt (response.id_token.getD "") with
      | none => .error (.thrown "Failed to parse id_token" response)
      | some jwt =>
        if jwt.header.truthy = false then
          .error (.thrown "Failed to parse id_token" response)
        else
          let hashAlg := lookupField (toFields jwt.header) "alg"
          if !JsonVal.truthyU hashAlg || JsonVal.jsLength hashAlg != some 5 then
            .error (.thrown "Unsupported alg" response)
          else
            match hashAlg with
            | some (.str alg) =>
              let hashBitsString := jsSubstr alg 2 3
              if hashBitsString == "" then
                .error (.thrown "Unsupported alg" response)
              else
                let hashBits := parseIntJS hashBitsString
                if !(hashBits == some 256 || hashBits == some 384
                    || hashBits == some 512) then
                  .error (.thrown "Unsupported alg" response)
                else
                  let sha := "sha" ++ toString (hashBits.getD 0)
                  let hash := c.hashString access_token sha
                  if hash == "" then
                    .error (.thrown "Failed to validate at_hash" response)
                  else
                    let left := jsSubstr hash 0 (hash.length / 2)
                    let left_b64u := c.hexToBase64Url left
                    if JsonVal.strictEqU (some (.str left_b64u)) at_hash = false then
                      .error (.thrown "Failed to validate at_hash" response)
                    else
                      .ok response
            | _ => .error (.thrown "TypeError: alg is not a string" response)

/-- `ResponseValidator._validateTokens`: branch on the payload shape — code
present: exchange it; id_token present: full validation (plus at_hash
binding when an access token is present, using the access token saved before
id-token validation); neither: pass through. -/
def _validateTokens (settings : OidcClientSettingsStore) (c : Collab)
    (state : SigninState) (response : SigninResponse) (ms : MetaState) :
    VRes SigninResponse :=
  if truthyS response.code then
    _processCode settings c state response ms
  else if truthyS response.id_token then
    if truthyS response.access_token then
      let access_token := response.access_token.getD ""
      let out := _validateIdToken settings c state response (response.id_token.getD "") ms
      match out.1 with
      | .error f => (.error f, out.2.1, out.2.2)
      | .ok r1 =>
        match _validateAccessToken c r1 access_token with
        | .error f => (.error f, out.2.1, out.2.2)
        | .ok r2 => (.ok r2, out.2.1, out.2.2)
    else
      _validateIdToken settings c state response (response.id_token.getD "") ms
  else
    (.ok response, ms, [])

/-- `ResponseValidator.validateSigninResponse`: the strictly sequential
pipeline — parameter processing, token acquisition/validation, claims
reconciliation — threading the metadata cache state and accumulating the
network-call trace. -/
def validateSigninResponse (settings : OidcClientSettingsStore) (c : Collab)
    (state : SigninState) (response : SigninResponse) (ms : MetaState) :
    VRes SigninResponse :=
  match _processSigninParams settings state response with
  | .error f => (.error f, ms, [])
  | .ok r1 =>
    match _validateTokens settings c state r1 ms with
    | (.error f, ms', tr) => (.error f, ms', tr)
    | (.ok r2, ms', tr) =>
      match _processClaims settings c state r2 ms' with
      | (.error f, ms'', tr2) => (.error f, ms'', tr ++ tr2)
      | (.ok r3, ms'', tr2) => (.ok r3, ms'', tr ++ tr2)

/-- The response object finally visible to the caller of a pipeline stage:
the enriched response on success, the response carried by the failure
otherwise. -/
def outResp : Except SigninFail SigninResponse → SigninResponse
  | .error f => f.resp
  | .ok r => r

/-- The sign-out response finally visible to the caller of a sign-out
validation outcome. -/
def outRespSignout : Except SignoutFail SignoutResponse → SignoutResponse
  | .error f => f.resp
  | .ok r => r

/-! ## Concrete fixtures used by witnesses -/

/-- A collaborator stub whose oracles all fail or return inert values. -/
def collabStub : Collab :=
  { getJson := fun _ => .error "network unavailable"
    exchangeCode := fun _ => .error "network unavailable"
    getClaims := fun _ => .error "network unavailable"
    parseJwt := fun _ => none
    validateJwtAttributes := fun _ _ _ _ _ => .error "invalid jwt"
    validateJwt := fun _ _ _ _ _ => .error "invalid jwt"
    hashString := fun _ _ => ""
    hexToBase64Url := fun _ => ""
    now := 0 }

/-- An empty metadata-service cache state. -/
def msEmpty : MetaState :=
  { metadataUrl := none, metadata := none, signingKeys := none }

/-- Default settings fixture. -/
def settingsFx : OidcClientSettingsStore :=
  { authority := some "https://idp.example"
    metadataUrl := none
    metadata := none
    metadataSeed := none
    signingKeys := none
    client_id := some "client"
    client_secret := none
    clockSkewInSeconds := 300
    filterProtocolClaims := true
    loadUserInfo := true
    mergeClaims := false }

/-- Default sign-in request-state fixture. -/
def signinStateFx : SigninState :=
  { id := "abc123"
    data := some (.str "opaque-data")
    client_id := some "client"
    authority := some "https://idp.example"
    nonce := none
    code_verifier := none
    redirect_uri := some "https://rp.example/cb"
    scope := some "openid"
    client_secret := none
    extraTokenParams := none
    skipUserInfo := none }

/-- Default sign-in response fixture (correlated with `signinStateFx`). -/
def signinResponseFx : SigninResponse :=
  { state := some (.str "abc123")
    error := none
    error_description := none
    error_uri := none
    code := none
    id_token := none
    access_token := none
    token_type := none
    session_state := none
    scope := none
    expires_in := none
    profile := none }

/-- A correlated sign-in response carrying an in-band provider error. -/
def signinResponseErrFx : SigninResponse :=
  { signinResponseFx with error := some "access_denied" }

/-- A collaborator whose JSON fetcher returns a fixed discovery document. -/
def collabMetaFx : Collab :=
  { collabStub with getJson := fun _ => .ok (.obj [("issuer", .str "I")]) }

/-- Settings carrying a static metadata document and an authority. -/
def settingsStaticFx : OidcClientSettingsStore :=
  { settingsFx with metadata := some [("issuer", .str "S")] }

/-- The cache state of a MetadataService freshly constructed from the default
settings: no cached document, URL derived from the authority. -/
def msFetchFx : MetaState := MetadataService.init settingsFx

/-- The document `getMetadata` caches after a fetch: the fetched JSON merged
over the optional static seed. -/
def mergedMetadata (settings : OidcClientSettingsStore) (j : JsonVal) : JsonObj :=
  jsAssign (jsAssign [] (settings.metadataSeed.getD [])) (toFields j)

/-- An RSA signing key with kid "a". -/
def keyRsaFx : JsonVal := .obj [("kid", .str "a"), ("kty", .str "RSA")]

/-- A JWT whose header names kid "a". -/
def jwtKidFx : Jwt := ⟨.obj [("kid", .str "a")], .obj []⟩

/-- A JWT whose header names no kid and alg RS256. -/
def jwtAlgFx : Jwt := ⟨.obj [("alg", .str "RS256")], .obj []⟩

/-- A JWT naming a kid that matches no published key. -/
def jwtMissFx : Jwt := ⟨.obj [("kid", .str "zz")], .obj [("nonce", .str "n1"), ("sub", .str "s")]⟩

/-- A key cache holding exactly the RSA key. -/
def msKeysFx : MetaState :=
  { metadataUrl := none, metadata := none, signingKeys := some [keyRsaFx] }

/-- A cache whose metadata is populated and whose key cache is empty, backed
by a provider publishing an empty key set. -/
def msRetryFx : MetaState :=
  { metadataUrl := none
    metadata := some [("issuer", .str "I"), ("jwks_uri", .str "U")]
    signingKeys := some [] }

/-- A collaborator for the retry scenario: parses every token to
`jwtMissFx` and serves an empty key set from the jwks endpoint. -/
def collabRetryFx : Collab :=
  { collabStub with
    parseJwt := fun _ => some jwtMissFx
    getJson := fun _ => .ok (.obj [("keys", .arr [])]) }

/-- A collaborator for at_hash validation: every token parses to an RS256
header, hashing yields the hex digest "abcd", and base64url encoding is
modelled as prefixing "B64-". -/
def collabHashFx : Collab :=
  { collabStub with
    parseJwt := fun _ => some ⟨.obj [("alg", .str "RS256")], .null⟩
    hashString := fun _ _ => "abcd"
    hexToBase64Url := fun h => "B64-" ++ h }

/-- A response carrying a validated profile with an at_hash matching the
left half of the stub digest, an id_token and an access token. -/
def responseHashFx : SigninResponse :=
  { signinResponseFx with
    profile := some (.obj [("at_hash", .str "B64-ab")])
    id_token := some "t"
    access_token := some "tok" }

/-- The response as enriched by the claims stage before the user-info fetch:
its profile is the claim-filtered id-token profile. -/
def filteredResponse (settings : OidcClientSettingsStore)
    (response : SigninResponse) : SigninResponse :=
  { response with profile := some (.obj (_filterProtocolClaims settings response.profile)) }

/-- A collaborator whose user-info endpoint returns sub "xyz". -/
def collabClaimsFx : Collab :=
  { collabStub with getClaims := fun _ => .ok (.obj [("sub", .str "xyz")]) }

/-- A validated OIDC response with id-token sub "abc", an access token, and
the opaque data already copied into its state. -/
def responseClaimsFx : SigninResponse :=
  { signinResponseFx with
    state := some (.str "opaque-data")
    id_token := some "t"
    access_token := some "tok"
    profile := some (.obj [("sub", .str "abc")]) }

/-- A token-exchange result whose only non-absent field is the non-empty
string "0" in expires_in. -/
def trZeroFx : TokenExchangeResponse :=
  { error := none, error_description := none, error_uri := none, id_token := none
    session_state := none, access_token := none, token_type := none, scope := none
    expires_in := some "0" }

/-- A response with a prior expires_in of 42 seconds. -/
def rExpFx : SigninResponse := { signinResponseFx with expires_in := some 42 }

/-! ## Theorems -/

section Theorems

/-! ### Association-list lemmas for the JS object model -/

theorem lookupField_setField_self (l : JsonObj) (k : String) (v : JsonVal) :
    lookupField (setField l k v) k = some v := by
  induction l with
  | nil => simp [setField, lookupField]
  | cons kv rest ih =>
    obtain ⟨k', v'⟩ := kv
    by_cases h : k' = k
    · subst h
      simp [setField, lookupField]
    · simp [setField, lookupField, h, ih]

theorem lookupField_setField_ne (l : JsonObj) (k k' : String) (v : JsonVal)
    (h : k' ≠ k) : lookupField (setField l k v) k' = lookupField l k' := by
  induction l with
  | nil => simp [setField, lookupField, Ne.symm h]
  | cons kv rest ih =>
    obtain ⟨k0, v0⟩ := kv
    by_cases h0 : k0 = k
    · subst h0
      simp [setField, lookupField, Ne.symm h]
    · by_cases h1 : k0 = k'
      · subst h1
        simp [setField, lookupField, h0]
      · simp [setField, lookupField, h0, h1, ih]

theorem lookupField_eq_none_of_not_mem (l : JsonObj) (k : String)
    (h : k ∉ l.map Prod.fst) : lookupField l k = none := by
  induction l with
  | nil => simp [lookupField]
  | cons kv rest ih =>
    obtain ⟨k0, v0⟩ := kv
    have h1 : k0 ≠ k := by
      rintro rfl
      exact h (by simp)
    have h2 : k ∉ rest.map Prod.fst := fun hm => h (by simp [hm])
    simp [lookupField, h1, ih h2]

theorem lookupField_jsAssign (g : JsonObj) (hg : (g.map Prod.fst).Nodup)
    (f : JsonObj) (k : String) :
    lookupField (jsAssign f g) k =
      match lookupField g k with
      | some v => some v
      | none => lookupField f k := by
  induction g generalizing f with
  | nil => simp [jsAssign, lookupField]
  | cons kv rest ih =>
    obtain ⟨k0, v0⟩ := kv
    simp at hg
    have step : jsAssign f ((k0, v0) :: rest) = jsAssign (setField f k0 v0) rest := rfl
    rw [step, ih hg.2]
    by_cases h : k0 = k
    · subst h
      have hnone : lookupField rest k0 = none := by
        apply lookupField_eq_none_of_not_mem
        intro hm
        obtain ⟨⟨a, b⟩, hmem, heq⟩ := List.mem_map.mp hm
        have : (k0, b) ∈ rest := by
          rw [← show a = k0 from heq]
          exact hmem
        exact hg.1 b this
      rw [hnone]
      have hcons : lookupField ((k0, v0) :: rest) k0 = some v0 := by
        simp [lookupField]
      rw [hcons]
      simp [lookupField_setField_self]
    · have hcons : lookupField ((k0, v0) :: rest) k = lookupField rest k := by
        simp [lookupField, h]
      rw [hcons]
      cases hrk : lookupField rest k with
      | none => simp [lookupField_setField_ne f k0 k v0 (Ne.symm h)]
      | some v => simp

/-! ### C1: state mismatch fails before any network call -/

/-- C1: for every sign-in or sign-out validation call where the response's
state differs from the request state's id, validation fails with the
state-mismatch error, and it does so before any network call is issued (the
sign-in result carries an empty network trace and an unchanged metadata
cache; sign-out validation is synchronous and can issue no network call at
all). -/
theorem state_mismatch_fails_before_network :
    (∀ (settings : OidcClientSettingsStore) (c : Collab) (state : SigninState)
       (response : SigninResponse) (ms : MetaState),
       JsonVal.strictEqU (some (.str state.id)) response.state = false →
       validateSigninResponse settings c state response ms =
         (.error (.thrown "State does not match" response), ms, [])) ∧
    (∀ (state : State) (response : SignoutResponse),
       JsonVal.strictEqU (some (.str state.id)) response.state = false →
       validateSignoutResponse state response =
         .error (.thrown "State does not match" response)) := by
  constructor
  · intro settings c state response ms h
    unfold validateSigninResponse _processSigninParams
    simp [h]
  · intro state response h
    unfold validateSignoutResponse
    simp [h]

/-- Witness for C1 at concrete inputs: a response carrying state "other"
against a request with id "abc123", and a sign-out response carrying "wrong"
against id "so-id". -/
theorem state_mismatch_fails_before_network_witness :
    JsonVal.strictEqU (some (.str signinStateFx.id)) (some (.str "other")) = false ∧
    validateSigninResponse settingsFx collabStub signinStateFx
        { signinResponseFx with state := some (.str "other") } msEmpty =
      (.error (.thrown "State does not match"
        { signinResponseFx with state := some (.str "other") }), msEmpty, []) ∧
    validateSignoutResponse ⟨"so-id", some (.str "D")⟩
        ⟨some (.str "wrong"), none, none, none⟩ =
      .error (.thrown "State does not match" ⟨some (.str "wrong"), none, none, none⟩) :=
  ⟨by decide,
   state_mismatch_fails_before_network.1 settingsFx collabStub signinStateFx
     { signinResponseFx with state := some (.str "other") } msEmpty (by decide),
   state_mismatch_fails_before_network.2 ⟨"so-id", some (.str "D")⟩
     ⟨some (.str "wrong"), none, none, none⟩ (by decide)⟩

/-! ### State-field preservation through the pipeline stages (for C2) -/

theorem foldTokenResponse_state (tr : TokenExchangeResponse) (r : SigninResponse) :
    (foldTokenResponse tr r).state = r.state := rfl

theorem vita_outResp_state (settings : OidcClientSettingsStore) (c : Collab)
    (state : SigninState) (response : SigninResponse) (idt : String) (ms : MetaState) :
    (outResp (_validateIdTokenAttributes settings c state response idt ms).1).state
      = response.state := by
  unfold _validateIdTokenAttributes
  repeat' split
  all_goals simp [outResp, SigninFail.resp]

theorem processCode_outResp_state (settings : OidcClientSettingsStore) (c : Collab)
    (state : SigninState) (response : SigninResponse) (ms : MetaState) :
    (outResp (_processCode settings c state response ms).1).state = response.state := by
  unfold _processCode
  dsimp only
  repeat' split
  all_goals try simp [outResp, SigninFail.resp, foldTokenResponse_state]
  all_goals
    (rename_i tok heq hif
     exact vita_outResp_state settings c state (foldTokenResponse tok response)
       ((foldTokenResponse tok response).id_token.getD "") ms)

theorem validateAccessToken_outResp_state (c : Collab) (r : SigninResponse)
    (access_token : String) :
    (outResp (_validateAccessToken c r access_token)).state = r.state := by
  unfold _validateAccessToken
  dsimp only
  repeat' split
  all_goals simp [outResp, SigninFail.resp]

theorem validateIdToken_outResp_state (settings : OidcClientSettingsStore)
    (c : Collab) (state : SigninState) (response : SigninResponse) (idt : String)
    (ms : MetaState) :
    (outResp (_validateIdToken settings c state response idt ms).1).state
      = response.state := by
  unfold _validateIdToken
  dsimp only
  repeat' split
  all_goals simp [outResp, SigninFail.resp]

theorem validateTokens_outResp_state (settings : OidcClientSettingsStore)
    (c : Collab) (state : SigninState) (response : SigninResponse) (ms : MetaState) :
    (outResp (_validateTokens settings c state response ms).1).state
      = response.state := by
  unfold _validateTokens
  dsimp only
  split
  · exact processCode_outResp_state settings c state response ms
  · split
    · split
      · split
        next f heq =>
          have h := validateIdToken_outResp_state settings c state response
            (response.id_token.getD "") ms
          rw [heq] at h
          simpa [outResp] using h
        next r1 heq =>
          have h := validateIdToken_outResp_state settings c state response
            (response.id_token.getD "") ms
          rw [heq] at h
          simp [outResp] at h
          split
          next f2 heq2 =>
            have h2 := validateAccessToken_outResp_state c r1 (response.access_token.getD "")
            rw [heq2] at h2
            simp [outResp] at h2
            simp [outResp, h2, h]
          next r2 heq2 =>
            have h2 := validateAccessToken_outResp_state c r1 (response.access_token.getD "")
            rw [heq2] at h2
            simp [outResp] at h2
            simp [outResp, h2, h]
      · exact validateIdToken_outResp_state settings c state response
          (response.id_token.getD "") ms
    · simp [outResp]

theorem processClaims_outResp_state (settings : OidcClientSettingsStore)
    (c : Collab) (state : SigninState) (response : SigninResponse) (ms : MetaState) :
    (outResp (_processClaims settings c state response ms).1).state
      = response.state := by
  unfold _processClaims
  dsimp only
  repeat' split
  all_goals simp [outResp, SigninFail.resp]

theorem processSigninParams_outResp_state (settings : OidcClientSettingsStore)
    (state : SigninState) (response : SigninResponse)
    (hc : JsonVal.strictEqU (some (.str state.id)) response.state = true)
    (h1 : truthyS state.client_id = true)
    (h2 : truthyS state.authority = true)
    (h3 : settings.authority = state.authority)
    (h4 : (truthyS settings.client_id && (settings.client_id != state.client_id)) = false) :
    (outResp (_processSigninParams settings state response)).state = state.data := by
  unfold _processSigninParams
  simp [hc, h1, h2, h3, h4]
  repeat' split
  all_goals simp [outResp, SigninFail.resp]

/-! ### C2: the opaque data and failure outcomes -/

/-- Counterexample to C2 as stated: a sign-out validation failure (state
mismatch) is raised before `state.data` is copied, so the caller-visible
response still carries the original correlation value, not the opaque
data. -/
theorem data_copied_before_every_failure_counterexample :
    validateSignoutResponse ⟨"a", some (.str "D")⟩ ⟨some (.str "b"), none, none, none⟩ =
      .error (.thrown "State does not match" ⟨some (.str "b"), none, none, none⟩) ∧
    (SignoutFail.thrown "State does not match"
        (⟨some (.str "b"), none, none, none⟩ : SignoutResponse)).resp.state ≠
      (⟨"a", some (.str "D")⟩ : State).data := by
  constructor
  · rfl
  · simp [SignoutFail.resp]

/-- C2 amended: once the correlation and consistency pre-checks pass (state
matches; for sign-in additionally client_id and authority are present on
state and consistent with settings), the opaque `state.data` has been copied
into the response before any later failure, so the caller-visible response of
every outcome — failure or success — carries it. The pre-check failures
themselves (exercised by the counterexample) are raised before the copy. -/
theorem data_copied_before_every_failure_amended :
    (∀ (state : State) (response : SignoutResponse),
       JsonVal.strictEqU (some (.str state.id)) response.state = true →
       (outRespSignout (validateSignoutResponse state response)).state = state.data) ∧
    (∀ (settings : OidcClientSettingsStore) (c : Collab) (state : SigninState)
       (response : SigninResponse) (ms : MetaState),
       JsonVal.strictEqU (some (.str state.id)) response.state = true →
       truthyS state.client_id = true →
       truthyS state.authority = true →
       settings.authority = state.authority →
       (truthyS settings.client_id && (settings.client_id != state.client_id)) = false →
       (outResp (validateSigninResponse settings c state response ms).1).state
         = state.data) := by
  constructor
  · intro state response hc
    unfold validateSignoutResponse
    simp [hc]
    split
    · simp [outRespSignout, SignoutFail.resp]
    · simp [outRespSignout]
  · intro settings c state response ms hc h1 h2 h3 h4
    have hp := processSigninParams_outResp_state settings state response hc h1 h2 h3 h4
    unfold validateSigninResponse
    cases hpp : _processSigninParams settings state response with
    | error f0 =>
      rw [hpp] at hp
      simpa [outResp] using hp
    | ok r1 =>
      rw [hpp] at hp
      simp [outResp] at hp
      dsimp only
      have hvs := validateTokens_outResp_state settings c state r1 ms
      rcases hvt : _validateTokens settings c state r1 ms with ⟨vres, vms, vtr⟩
      rw [hvt] at hvs
      cases vres with
      | error fv =>
        dsimp only
        simp [outResp] at hvs
        cases fv <;> simp_all [outResp, SigninFail.resp]
      | ok r2 =>
        simp [outResp] at hvs
        have hps := processClaims_outResp_state settings c state r2 vms
        rcases hpc : _processClaims settings c state r2 vms with ⟨pres, pms, ptr⟩
        rw [hpc] at hps
        dsimp only
        cases pres with
        | error fp =>
          simp [outResp] at hps
          cases fp <;> simp_all [outResp, SigninFail.resp]
        | ok r3 =>
          simp [outResp] at hps
          simp_all [outResp]

/-- Witness for C2 amended: a correlated sign-out response with an in-band
error, and a correlated sign-in response with an in-band error against the
default fixtures; in both cases the failure carries the opaque data. -/
theorem data_copied_before_every_failure_amended_witness :
    (outRespSignout (validateSignoutResponse ⟨"so", some (.str "D")⟩
        ⟨some (.str "so"), some "access_denied", none, none⟩)).state = some (.str "D") ∧
    (outResp (validateSigninResponse settingsFx collabStub signinStateFx
        signinResponseErrFx msEmpty).1).state = some (.str "opaque-data") :=
  ⟨data_copied_before_every_failure_amended.1 ⟨"so", some (.str "D")⟩
      ⟨some (.str "so"), some "access_denied", none, none⟩ (by decide),
   data_copied_before_every_failure_amended.2 settingsFx collabStub signinStateFx
      signinResponseErrFx msEmpty (by decide) (by decide) (by decide) rfl (by decide)⟩

/-! ### C3 and C10: parameter-stage failure laws -/

theorem processSigninParams_error_of_violation (settings : OidcClientSettingsStore)
    (state : SigninState) (response : SigninResponse)
    (h : truthyS state.client_id = false ∨ truthyS state.authority = false ∨
         settings.authority ≠ state.authority ∨
         (truthyS settings.client_id = true ∧ settings.client_id ≠ state.client_id) ∨
         (truthyS state.nonce = true ∧ truthyS response.id_token = false) ∨
         (truthyS state.nonce = false ∧ truthyS response.id_token = true) ∨
         (truthyS state.code_verifier = true ∧ truthyS response.code = false) ∨
         (truthyS state.code_verifier = false ∧ truthyS response.code = true)) :
    ∃ f, _processSigninParams settings state response = .error f := by
  unfold _processSigninParams
  by_cases c0 : JsonVal.strictEqU (some (.str state.id)) response.state = false
  · rw [if_pos c0]; exact ⟨_, rfl⟩
  rw [if_neg c0]
  by_cases c1 : truthyS state.client_id = false
  · rw [if_pos c1]; exact ⟨_, rfl⟩
  rw [if_neg c1]
  by_cases c2 : truthyS state.authority = false
  · rw [if_pos c2]; exact ⟨_, rfl⟩
  rw [if_neg c2]
  by_cases c3 : (settings.authority != state.authority) = true
  · rw [if_pos c3]; exact ⟨_, rfl⟩
  rw [if_neg c3]
  by_cases c4 : (truthyS settings.client_id && settings.client_id != state.client_id) = true
  · rw [if_pos c4]; exact ⟨_, rfl⟩
  rw [if_neg c4]
  dsimp only
  by_cases c5 : truthyS response.error = true
  · rw [if_pos c5]; exact ⟨_, rfl⟩
  rw [if_neg c5]
  by_cases c6 : (truthyS state.nonce && !truthyS response.id_token) = true
  · rw [if_pos c6]; exact ⟨_, rfl⟩
  rw [if_neg c6]
  by_cases c7 : (!truthyS state.nonce && truthyS response.id_token) = true
  · rw [if_pos c7]; exact ⟨_, rfl⟩
  rw [if_neg c7]
  by_cases c8 : (truthyS state.code_verifier && !truthyS response.code) = true
  · rw [if_pos c8]; exact ⟨_, rfl⟩
  rw [if_neg c8]
  by_cases c9 : (!truthyS state.code_verifier && truthyS response.code) = true
  · rw [if_pos c9]; exact ⟨_, rfl⟩
  rw [if_neg c9]
  exfalso
  rcases h with h|h|h|h|h|h|h|h <;> simp_all

theorem validateSigninResponse_error_of_params (settings : OidcClientSettingsStore)
    (c : Collab) (state : SigninState) (response : SigninResponse) (ms : MetaState)
    (h : ∃ f, _processSigninParams settings state response = .error f) :
    ∃ f, validateSigninResponse settings c state response ms = (.error f, ms, []) := by
  obtain ⟨f, hf⟩ := h
  refine ⟨f, ?_⟩
  unfold validateSigninResponse
  rw [hf]

/-- C3: for every correlated, non-error sign-in pair, a truthy `state.nonce`
with no `response.id_token` fails validation, and conversely; the same two
symmetric laws hold for `state.code_verifier` versus `response.code`. (The
parameter stage is synchronous, so the failure also leaves the cache
untouched and the network trace empty.) -/
theorem nonce_code_presence_laws (settings : OidcClientSettingsStore) (c : Collab)
    (state : SigninState) (response : SigninResponse) (ms : MetaState)
    (hc : JsonVal.strictEqU (some (.str state.id)) response.state = true)
    (herr : truthyS response.error = false)
    (h : (truthyS state.nonce = true ∧ truthyS response.id_token = false) ∨
         (truthyS state.nonce = false ∧ truthyS response.id_token = true) ∨
         (truthyS state.code_verifier = true ∧ truthyS response.code = false) ∨
         (truthyS state.code_verifier = false ∧ truthyS response.code = true)) :
    ∃ f, validateSigninResponse settings c state response ms = (.error f, ms, []) :=
  validateSigninResponse_error_of_params settings c state response ms
    (processSigninParams_error_of_violation settings state response
      (Or.inr (Or.inr (Or.inr (Or.inr h)))))

/-- Witness for C3: a correlated, error-free response with no id_token
against a state expecting a nonce. -/
theorem nonce_code_presence_laws_witness :
    ∃ f, validateSigninResponse settingsFx collabStub
        { signinStateFx with nonce := some "n1" } signinResponseFx msEmpty =
      (.error f, msEmpty, []) :=
  nonce_code_presence_laws settingsFx collabStub
    { signinStateFx with nonce := some "n1" } signinResponseFx msEmpty
    (by decide) (by decide) (Or.inl (by decide))

/-- C10: sign-in validation also fails on a correlated response whenever the
state lacks a client_id or authority, the configured authority differs from
the state's, or a configured client_id differs from the state's. -/
theorem settings_state_consistency_checks (settings : OidcClientSettingsStore)
    (c : Collab) (state : SigninState) (response : SigninResponse) (ms : MetaState)
    (hc : JsonVal.strictEqU (some (.str state.id)) response.state = true)
    (h : truthyS state.client_id = false ∨ truthyS state.authority = false ∨
         settings.authority ≠ state.authority ∨
         (truthyS settings.client_id = true ∧ settings.client_id ≠ state.client_id)) :
    ∃ f, validateSigninResponse settings c state response ms = (.error f, ms, []) := by
  refine validateSigninResponse_error_of_params settings c state response ms
    (processSigninParams_error_of_violation settings state response ?_)
  rcases h with h|h|h|h
  · exact Or.inl h
  · exact Or.inr (Or.inl h)
  · exact Or.inr (Or.inr (Or.inl h))
  · exact Or.inr (Or.inr (Or.inr (Or.inl h)))

/-- Witness for C10: a correlated response whose state carries client_id
"other" while the settings configure client_id "client". -/
theorem settings_state_consistency_checks_witness :
    ∃ f, validateSigninResponse settingsFx collabStub
        { signinStateFx with client_id := some "other" } signinResponseFx msEmpty =
      (.error f, msEmpty, []) :=
  settings_state_consistency_checks settingsFx collabStub
    { signinStateFx with client_id := some "other" } signinResponseFx msEmpty
    (by decide) (Or.inr (Or.inr (Or.inr (by decide))))

/-! ### C9: getMetadata caching, configuration error, fetch-merge-cache -/

/-- C9: `getMetadata` returns the cached or statically configured document
with no fetch when one is present (even when an authority is configured);
without a resolved URL it fails with the configuration error; otherwise it
fetches once, merges the fetched JSON over the optional static seed with
fetched values winning on key collision, caches the result, and a later call
on the resulting state performs no further fetch. -/
theorem getMetadata_spec :
    (∀ (settings : OidcClientSettingsStore) (c : Collab) (ms : MetaState) (m : JsonObj),
       ms.metadata = some m → getMetadata settings c ms = (.ok m, ms, [])) ∧
    (∀ (settings : OidcClientSettingsStore) (c : Collab) (ms : MetaState),
       ms.metadata = none → (ms.metadataUrl = none ∨ ms.metadataUrl = some "") →
       getMetadata settings c ms =
         (.error "No authority or metadataUrl configured on settings", ms, [])) ∧
    (∀ (settings : OidcClientSettingsStore) (c : Collab) (ms : MetaState)
       (url : String) (j : JsonVal),
       ms.metadata = none → ms.metadataUrl = some url → url ≠ "" →
       c.getJson url = .ok j →
       getMetadata settings c ms =
         (.ok (mergedMetadata settings j),
          { ms with metadata := some (mergedMetadata settings j) },
          [.getJson url])) ∧
    (∀ (seed g : JsonObj), (g.map Prod.fst).Nodup → ∀ (k : String) (v : JsonVal),
       lookupField g k = some v →
       lookupField (jsAssign (jsAssign [] seed) g) k = some v) ∧
    (∀ (settings : OidcClientSettingsStore) (c : Collab) (ms ms' : MetaState)
       (m : JsonObj) (tr : List NetCall),
       getMetadata settings c ms = (.ok m, ms', tr) →
       getMetadata settings c ms' = (.ok m, ms', [])) ∧
    (∀ (settings : OidcClientSettingsStore) (c : Collab) (m : JsonObj),
       settings.metadata = some m →
       getMetadata settings c (MetadataService.init settings) =
         (.ok m, MetadataService.init settings, [])) := by
  refine ⟨?_, ?_, ?_, ?_, ?_, ?_⟩
  · intro settings c ms m hmd
    unfold getMetadata
    rw [hmd]
  · intro settings c ms hmd hurl
    unfold getMetadata
    rw [hmd]
    rcases hurl with h | h <;> rw [h] <;> simp
  · intro settings c ms url j hmd hurl hne hj
    unfold getMetadata
    rw [hmd, hurl]
    simp only [hj]
    have : (url == "") = false := by
      simp [hne]
    rw [this]
    simp [mergedMetadata]
  · intro seed g hg k v hk
    rw [lookupField_jsAssign g hg (jsAssign [] seed) k, hk]
  · intro settings c ms ms' m tr h
    unfold getMetadata at h
    cases hmd : ms.metadata with
    | some m0 =>
      rw [hmd] at h
      simp at h
      obtain ⟨h1, h2, h3⟩ := h
      subst h1
      subst h2
      unfold getMetadata
      rw [hmd]
    | none =>
      rw [hmd] at h
      cases hurl : ms.metadataUrl with
      | none =>
        rw [hurl] at h
        simp at h
      | some url =>
        rw [hurl] at h
        dsimp only at h
        by_cases hne : (url == "") = true
        · rw [if_pos hne] at h
          simp at h
        · rw [if_neg hne] at h
          cases hj : c.getJson url with
          | error e =>
            rw [hj] at h
            simp at h
          | ok j =>
            rw [hj] at h
            simp at h
            obtain ⟨h1, h2, h3⟩ := h
            subst h1
            unfold getMetadata
            rw [← h2]
  · intro settings c m hm
    unfold getMetadata MetadataService.init
    simp [hm]

/-- Witness for C9: the static document is returned unfetched even with an
authority configured; a fetch against a stub provider merges and caches; a
fetched binding wins a key collision against the seed. -/
theorem getMetadata_spec_witness :
    getMetadata settingsStaticFx collabMetaFx (MetadataService.init settingsStaticFx) =
      (.ok [("issuer", .str "S")], MetadataService.init settingsStaticFx, []) ∧
    getMetadata settingsFx collabMetaFx msFetchFx =
      (.ok (mergedMetadata settingsFx (.obj [("issuer", .str "I")])),
       { msFetchFx with metadata := some (mergedMetadata settingsFx (.obj [("issuer", .str "I")])) },
       [.getJson "https://idp.example/.well-known/openid-configuration"]) ∧
    lookupField (jsAssign (jsAssign [] [("issuer", .str "seed")])
        [("issuer", .str "I")]) "issuer" = some (.str "I") :=
  ⟨getMetadata_spec.2.2.2.2.2 settingsStaticFx collabMetaFx [("issuer", .str "S")] rfl,
   getMetadata_spec.2.2.1 settingsFx collabMetaFx msFetchFx
     "https://idp.example/.well-known/openid-configuration" (.obj [("issuer", .str "I")])
     rfl (by decide) (by decide) rfl,
   getMetadata_spec.2.2.2.1 [("issuer", .str "seed")] [("issuer", .str "I")]
     (by simp) "issuer" (.str "I") (by simp [lookupField])⟩

/-! ### C4: signing-key resolution with a single retry -/

/-- C4: a truthy header kid selects the unique key carrying that kid (none
when no key matches); without a kid, keys are filtered by algorithm family
(RS to RSA, PS to PS, ES to EC, other families yield no candidates) and a key
resolves only when exactly one remains; an unresolved first attempt resets
the key cache and retries resolution exactly once; a still-unresolved retry
makes id-token validation fail. -/
theorem signing_key_resolution_spec :
    (∀ (settings : OidcClientSettingsStore) (c : Collab) (jwt : Jwt) (ms : MetaState)
       (keys : List JsonVal) (kidV k : JsonVal),
       ms.signingKeys = some keys →
       lookupField (toFields jwt.header) "kid" = some kidV →
       kidV.truthy = true →
       keys.filter (fun k' =>
         JsonVal.strictEqU (lookupField (toFields k') "kid") (some kidV)) = [k] →
       _getSigningKeyForJwt settings c jwt ms = (.ok (some k), ms, [])) ∧
    (∀ (settings : OidcClientSettingsStore) (c : Collab) (jwt : Jwt) (ms : MetaState)
       (keys : List JsonVal) (kidV : JsonVal),
       ms.signingKeys = some keys →
       lookupField (toFields jwt.header) "kid" = some kidV →
       kidV.truthy = true →
       keys.filter (fun k' =>
         JsonVal.strictEqU (lookupField (toFields k') "kid") (some kidV)) = [] →
       _getSigningKeyForJwt settings c jwt ms = (.ok none, ms, [])) ∧
    (∀ (keys : List JsonVal) (alg : String),
       (strStartsWith alg "RS" = true →
          _filterByAlg keys alg = keys.filter (fun k =>
            JsonVal.strictEqU (lookupField (toFields k) "kty") (some (.str "RSA")))) ∧
       (strStartsWith alg "RS" = false → strStartsWith alg "PS" = true →
          _filterByAlg keys alg = keys.filter (fun k =>
            JsonVal.strictEqU (lookupField (toFields k) "kty") (some (.str "PS")))) ∧
       (strStartsWith alg "RS" = false → strStartsWith alg "PS" = false →
        strStartsWith alg "ES" = true →
          _filterByAlg keys alg = keys.filter (fun k =>
            JsonVal.strictEqU (lookupField (toFields k) "kty") (some (.str "EC")))) ∧
       (strStartsWith alg "RS" = false → strStartsWith alg "PS" = false →
        strStartsWith alg "ES" = false → _filterByAlg keys alg = [])) ∧
    (∀ (settings : OidcClientSettingsStore) (c : Collab) (jwt : Jwt) (ms : MetaState)
       (keys : List JsonVal) (alg : String) (k : JsonVal),
       ms.signingKeys = some keys →
       JsonVal.truthyU (lookupField (toFields jwt.header) "kid") = false →
       lookupField (toFields jwt.header) "alg" = some (.str alg) →
       _filterByAlg keys alg = [k] →
       _getSigningKeyForJwt settings c jwt ms = (.ok (some k), ms, [])) ∧
    (∀ (settings : OidcClientSettingsStore) (c : Collab) (jwt : Jwt) (ms : MetaState)
       (keys : List JsonVal) (alg : String),
       ms.signingKeys = some keys →
       JsonVal.truthyU (lookupField (toFields jwt.header) "kid") = false →
       lookupField (toFields jwt.header) "alg" = some (.str alg) →
       (_filterByAlg keys alg).length ≠ 1 →
       _getSigningKeyForJwt settings c jwt ms = (.ok none, ms, [])) ∧
    (∀ (settings : OidcClientSettingsStore) (c : Collab) (jwt : Jwt) (ms ms1 : MetaState)
       (k : JsonVal) (tr1 : List NetCall),
       _getSigningKeyForJwt settings c jwt ms = (.ok (some k), ms1, tr1) →
       _getSigningKeyForJwtWithSingleRetry settings c jwt ms = (.ok (some k), ms1, tr1)) ∧
    (∀ (settings : OidcClientSettingsStore) (c : Collab) (jwt : Jwt) (ms ms1 : MetaState)
       (tr1 : List NetCall),
       _getSigningKeyForJwt settings c jwt ms = (.ok none, ms1, tr1) →
       _getSigningKeyForJwtWithSingleRetry settings c jwt ms =
         ((_getSigningKeyForJwt settings c jwt (resetSigningKeys ms1)).1,
          (_getSigningKeyForJwt settings c jwt (resetSigningKeys ms1)).2.1,
          tr1 ++ (_getSigningKeyForJwt settings c jwt (resetSigningKeys ms1)).2.2)) ∧
    (∀ (settings : OidcClientSettingsStore) (c : Collab) (state : SigninState)
       (response : SigninResponse) (id_token : String) (ms ms2 : MetaState)
       (n : String) (jwt : Jwt) (md : JsonObj) (issV : JsonVal) (tr2 : List NetCall),
       state.nonce = some n → n ≠ "" →
       c.parseJwt id_token = some jwt →
       jwt.header.truthy = true → jwt.payload.truthy = true →
       JsonVal.strictEqU (some (.str n))
         (lookupField (toFields jwt.payload) "nonce") = true →
       ms.metadata = some md → lookupField md "issuer" = some issV →
       _getSigningKeyForJwtWithSingleRetry settings c jwt ms = (.ok none, ms2, tr2) →
       _validateIdToken settings c state response id_token ms =
         (.error (.thrown "No key matching kid or alg found in signing keys" response),
          ms2, tr2)) := by
  refine ⟨?_, ?_, ?_, ?_, ?_, ?_, ?_, ?_⟩
  · intro settings c jwt ms keys kidV k hks hkid hkv hfil
    unfold _getSigningKeyForJwt getSigningKeys
    rw [hks]
    dsimp only
    rw [hkid]
    simp [JsonVal.truthyU, hkv, hfil]
  · intro settings c jwt ms keys kidV hks hkid hkv hfil
    unfold _getSigningKeyForJwt getSigningKeys
    rw [hks]
    dsimp only
    rw [hkid]
    simp [JsonVal.truthyU, hkv, hfil]
  · intro keys alg
    refine ⟨?_, ?_, ?_, ?_⟩
    · intro h1
      unfold _filterByAlg
      simp [h1]
    · intro h1 h2
      unfold _filterByAlg
      simp [h1, h2]
    · intro h1 h2 h3
      unfold _filterByAlg
      simp [h1, h2, h3]
    · intro h1 h2 h3
      unfold _filterByAlg
      simp [h1, h2, h3]
  · intro settings c jwt ms keys alg k hks hkid halg hfil
    simp [_getSigningKeyForJwt, getSigningKeys, hks, hkid, halg, hfil]
  · intro settings c jwt ms keys alg hks hkid halg hlen
    simp only [_getSigningKeyForJwt, getSigningKeys, hks, hkid, halg]
    simp only [Bool.false_eq_true, if_false]
    rcases hfl : _filterByAlg keys alg with _ | ⟨k1, _ | ⟨k2, rest⟩⟩
    · rfl
    · exact absurd (by rw [hfl]; rfl) hlen
    · rfl
  · intro settings c jwt ms ms1 k tr1 h
    unfold _getSigningKeyForJwtWithSingleRetry
    rw [h]
  · intro settings c jwt ms ms1 tr1 h
    unfold _getSigningKeyForJwtWithSingleRetry
    rw [h]
    dsimp only
    rcases hsecond : _getSigningKeyForJwt settings c jwt (resetSigningKeys ms1)
      with ⟨res2, ms3, tr3⟩
    cases res2 <;> simp
  · intro settings c state response id_token ms ms2 n jwt md issV tr2
      hn hne hp hh hpl hnm hmd hiss hret
    have h1 : truthyS state.nonce = true := by
      rw [hn]
      simpa [truthyS] using hne
    have hg : getIssuer settings c ms = (.ok issV, ms, []) := by
      simp [getIssuer, _getMetadataProperty, getMetadata, hmd, hiss]
    have h2 : truthyS (some n) = true := by
      simpa [truthyS] using hne
    unfold _validateIdToken
    simp [h1, h2, hp, hh, hpl, hn, hnm, hg, hret]

/-- Witness for C4 at concrete inputs: a kid match, a kid miss, the RS/PS/ES
and unsupported family filters, the single-match and ambiguous no-kid
resolutions, the no-retry and retry-once laws, and the failing id-token
validation after an unresolved retry. -/
theorem signing_key_resolution_spec_witness :
    _getSigningKeyForJwt settingsFx collabStub jwtKidFx msKeysFx =
      (.ok (some keyRsaFx), msKeysFx, []) ∧
    _filterByAlg [keyRsaFx] "RS256" = [keyRsaFx] ∧
    _filterByAlg [keyRsaFx] "HS256" = [] ∧
    _getSigningKeyForJwt settingsFx collabStub jwtAlgFx msKeysFx =
      (.ok (some keyRsaFx), msKeysFx, []) ∧
    _getSigningKeyForJwtWithSingleRetry settingsFx collabStub jwtKidFx msKeysFx =
      (.ok (some keyRsaFx), msKeysFx, []) ∧
    _getSigningKeyForJwtWithSingleRetry settingsFx collabRetryFx jwtMissFx msRetryFx =
      ((_getSigningKeyForJwt settingsFx collabRetryFx jwtMissFx
          (resetSigningKeys msRetryFx)).1,
       (_getSigningKeyForJwt settingsFx collabRetryFx jwtMissFx
          (resetSigningKeys msRetryFx)).2.1,
       [] ++ (_getSigningKeyForJwt settingsFx collabRetryFx jwtMissFx
          (resetSigningKeys msRetryFx)).2.2) ∧
    _validateIdToken settingsFx collabRetryFx { signinStateFx with nonce := some "n1" }
        signinResponseFx "tok" msRetryFx =
      (.error (.thrown "No key matching kid or alg found in signing keys" signinResponseFx),
       { msRetryFx with signingKeys := some [] }, [.getJson "U"]) := by
  refine ⟨?_, ?_, ?_, ?_, ?_, ?_, ?_⟩
  · exact signing_key_resolution_spec.1 settingsFx collabStub jwtKidFx msKeysFx
      [keyRsaFx] (.str "a") keyRsaFx rfl rfl rfl rfl
  · have h := (signing_key_resolution_spec.2.2.1 [keyRsaFx] "RS256").1 rfl
    rw [h]
    rfl
  · exact (signing_key_resolution_spec.2.2.1 [keyRsaFx] "HS256").2.2.2 rfl rfl rfl
  · exact signing_key_resolution_spec.2.2.2.1 settingsFx collabStub jwtAlgFx msKeysFx
      [keyRsaFx] "RS256" keyRsaFx rfl rfl rfl rfl
  · exact signing_key_resolution_spec.2.2.2.2.2.1 settingsFx collabStub jwtKidFx
      msKeysFx msKeysFx keyRsaFx [] rfl
  · exact signing_key_resolution_spec.2.2.2.2.2.2.1 settingsFx collabRetryFx jwtMissFx
      msRetryFx msRetryFx [] rfl
  · exact signing_key_resolution_spec.2.2.2.2.2.2.2 settingsFx collabRetryFx
      { signinStateFx with nonce := some "n1" } signinResponseFx "tok" msRetryFx
      { msRetryFx with signingKeys := some [] } "n1" jwtMissFx
      [("issuer", .str "I"), ("jwks_uri", .str "U")] (.str "I") [.getJson "U"]
      rfl (by decide) rfl rfl rfl rfl rfl rfl rfl

/-! ### C5: at_hash validation -/

/-- C5: for a response carrying a validated profile with a non-empty
`at_hash` and an access token, at_hash validation accepts exactly when the
id-token header alg has exactly 5 characters, its trailing 3 characters
parse to 256, 384 or 512, and base64url-encoding the left half of the
corresponding sha digest of the raw access token equals the `at_hash` claim;
every other alg shape, bit length or mismatch fails. -/
theorem at_hash_validation_spec (c : Collab) (response : SigninResponse)
    (access_token : String) (pf : JsonObj) (ah : String) (idt : String)
    (jwt : Jwt) (alg : String)
    (hprof : response.profile = some (.obj pf))
    (hah : lookupField pf "at_hash" = some (.str ah))
    (hah' : ah ≠ "")
    (hidt : response.id_token = some idt)
    (hidt' : idt ≠ "")
    (hjwt : c.parseJwt idt = some jwt)
    (hhdr : jwt.header.truthy = true)
    (halg : lookupField (toFields jwt.header) "alg" = some (.str alg))
    (hhash : ∀ s a, c.hashString s a ≠ "") :
    (_validateAccessToken c response access_token = .ok response) ↔
      (alg.length = 5 ∧ ∃ b : Int, (b = 256 ∨ b = 384 ∨ b = 512) ∧
        parseIntJS (jsSubstr alg 2 3) = some b ∧
        c.hexToBase64Url (jsSubstr (c.hashString access_token ("sha" ++ toString b)) 0
          ((c.hashString access_token ("sha" ++ toString b)).length / 2)) = ah) := by
  have h1 : JsonVal.truthyU response.profile = true := by
    rw [hprof]
    rfl
  have h2 : lookupField (toFields (response.profile.getD .null)) "at_hash"
      = some (.str ah) := by
    rw [hprof]
    simpa [toFields] using hah
  have h3 : truthyS response.id_token = true := by
    rw [hidt]
    simpa [truthyS] using hidt'
  have h4 : response.id_token.getD "" = idt := by
    rw [hidt]
    rfl
  unfold _validateAccessToken
  rw [h1]
  simp only [h2]
  have h5 : JsonVal.truthyU (some (JsonVal.str ah)) = true := by
    simpa [JsonVal.truthyU, JsonVal.truthy] using hah'
  rw [h5, h3, h4, hjwt]
  simp only [hhdr, halg]
  by_cases hlen : alg.length = 5
  · have h6 : JsonVal.truthyU (some (JsonVal.str alg)) = true := by
      have : alg ≠ "" := by
        intro habs
        rw [habs] at hlen
        exact absurd hlen (by decide)
      simpa [JsonVal.truthyU, JsonVal.truthy] using this
    have h7 : JsonVal.jsLength (some (JsonVal.str alg)) = some 5 := by
      simp [JsonVal.jsLength, hlen]
    have hcondA : (!JsonVal.truthyU (some (JsonVal.str alg))
        || JsonVal.jsLength (some (JsonVal.str alg)) != some 5) = false := by
      simp [h6, h7]
    simp only [hcondA]
    rw [if_neg (show ¬(false = true) by simp)]
    have h8 : (jsSubstr alg 2 3 == "") = false := by
      have hl : (jsSubstr alg 2 3).length = 3 := by
        have hde : alg.toList.length = 5 := by
          rw [← hlen]
          rfl
        show ((alg.toList.drop 2).take 3).length = 3
        simp [List.length_take, List.length_drop, hde]
        omega
      simp only [beq_eq_false_iff_ne, ne_eq]
      intro habs
      rw [habs] at hl
      simp at hl
    simp only [h8]
    rw [if_neg (show ¬(false = true) by simp)]
    rcases hpi : parseIntJS (jsSubstr alg 2 3) with _ | b
    · rw [if_pos (show (!((none : Option Int) == some 256 || (none : Option Int) == some 384
          || (none : Option Int) == some 512)) = true from rfl)]
      constructor
      · intro habs
        exact absurd habs (by simp)
      · rintro ⟨_, b', hb', hpi', hcmp'⟩
        exact Option.noConfusion hpi'
    · by_cases hb : b = 256 ∨ b = 384 ∨ b = 512
      · have h9 : (!((some b == some (256 : Int)) || (some b == some (384 : Int))
            || (some b == some (512 : Int)))) = false := by
          rcases hb with h | h | h <;> simp [h]
        simp only [h9]
        rw [if_neg (show ¬(false = true) by simp)]
        simp only [Option.getD_some]
        have h10 : (c.hashString access_token ("sha" ++ toString b) == "") = false := by
          simp only [beq_eq_false_iff_ne, ne_eq]
          exact hhash _ _
        simp only [h10]
        rw [if_neg (show ¬(false = true) by simp)]
        by_cases hcmp : c.hexToBase64Url (jsSubstr (c.hashString access_token
            ("sha" ++ toString b)) 0
            ((c.hashString access_token ("sha" ++ toString b)).length / 2)) = ah
        · have hstrict : JsonVal.strictEqU (some (.str (c.hexToBase64Url (jsSubstr
              (c.hashString access_token ("sha" ++ toString b)) 0
              ((c.hashString access_token ("sha" ++ toString b)).length / 2)))))
              (some (.str ah)) = true := by
            simp [JsonVal.strictEqU, JsonVal.strictEq, hcmp]
          simp only [hstrict]
          rw [if_neg (show ¬(true = false) by simp)]
          constructor
          · intro _
            exact ⟨hlen, b, hb, rfl, hcmp⟩
          · intro _
            rfl
        · have hstrict : JsonVal.strictEqU (some (.str (c.hexToBase64Url (jsSubstr
              (c.hashString access_token ("sha" ++ toString b)) 0
              ((c.hashString access_token ("sha" ++ toString b)).length / 2)))))
              (some (.str ah)) = false := by
            simp only [JsonVal.strictEqU, JsonVal.strictEq, beq_eq_false_iff_ne, ne_eq]
            exact hcmp
          simp only [hstrict]
          constructor
          · intro habs
            exact absurd habs (by simp)
          · rintro ⟨_, b', hb', hpi', hcmp'⟩
            injection hpi' with hbb
            subst hbb
            exact absurd hcmp' hcmp
      · have h9 : (!((some b == some (256 : Int)) || (some b == some (384 : Int))
            || (some b == some (512 : Int)))) = true := by
          push_neg at hb
          simp [hb.1, hb.2.1, hb.2.2]
        simp only [h9]
        constructor
        · intro habs
          exact absurd habs (by simp)
        · rintro ⟨_, b', hb', hpi', hcmp'⟩
          injection hpi' with hbb
          subst hbb
          exact absurd hb' hb
  · have hcondA : (!JsonVal.truthyU (some (JsonVal.str alg))
        || JsonVal.jsLength (some (JsonVal.str alg)) != some 5) = true := by
      simp [JsonVal.jsLength, hlen]
    simp only [hcondA]
    constructor
    · intro habs
      exact absurd habs (by simp)
    · rintro ⟨habs, _⟩
      exact absurd habs hlen

/-- Witness for C5: with the stub collaborator the access token is accepted,
the digest left half "ab" base64url-encoding to the profile's at_hash. -/
theorem at_hash_validation_spec_witness :
    _validateAccessToken collabHashFx responseHashFx "tok" = .ok responseHashFx :=
  (at_hash_validation_spec collabHashFx responseHashFx "tok"
      [("at_hash", .str "B64-ab")] "B64-ab" "t"
      ⟨.obj [("alg", .str "RS256")], .null⟩ "RS256"
      rfl rfl (by decide) rfl (by decide) rfl rfl rfl
      (fun s a => by simp [collabHashFx, collabStub])).mpr
    ⟨rfl, 256, Or.inl rfl, by decide, by decide⟩

/-! ### C6: user-info subject mismatch -/

theorem lookupField_filter (l : JsonObj) (p : String → Bool) (k : String)
    (hp : p k = true) :
    lookupField (l.filter (fun kv => p kv.1)) k = lookupField l k := by
  induction l with
  | nil => simp [lookupField]
  | cons kv rest ih =>
    obtain ⟨k0, v0⟩ := kv
    by_cases h0 : k0 = k
    · subst h0
      simp [List.filter, hp, lookupField]
    · cases hpk : p k0 <;> simp [List.filter, hpk, lookupField, h0, ih]

theorem filterProtocolClaims_preserves_sub (settings : OidcClientSettingsStore)
    (pf : JsonObj) (hnd : (pf.map Prod.fst).Nodup) :
    lookupField (_filterProtocolClaims settings (some (.obj pf))) "sub"
      = lookupField pf "sub" := by
  have hassign : lookupField (jsAssign [] pf) "sub" = lookupField pf "sub" := by
    rw [lookupField_jsAssign pf hnd [] "sub"]
    cases h : lookupField pf "sub" <;> simp [lookupField]
  unfold _filterProtocolClaims
  by_cases hf : settings.filterProtocolClaims
  · simp only [Option.getD_some, toFields, hf, if_true]
    rw [lookupField_filter (jsAssign [] pf) (fun s => !(ProtocolClaims.contains s)) "sub"
      (by decide)]
    exact hassign
  · simp only [Option.getD_some, toFields, hf, if_false]
    exact hassign

/-- C6: when user-info loading applies and the fetched claim set's sub
strictly differs from the id-token profile's sub, claims processing fails
with the subject-mismatch error; the failure carries the response whose
profile is still the filtered id-token profile (nothing merged) and whose
state — the opaque data copied earlier — is untouched. -/
theorem userinfo_sub_mismatch_fails (settings : OidcClientSettingsStore) (c : Collab)
    (state : SigninState) (response : SigninResponse) (ms : MetaState)
    (pf : JsonObj) (at_ : String) (claims : JsonVal)
    (hprof : response.profile = some (.obj pf))
    (hnd : (pf.map Prod.fst).Nodup)
    (hoidc : response.isOpenIdConnect = true)
    (hskip : state.skipUserInfo ≠ some true)
    (hload : settings.loadUserInfo = true)
    (hat : response.access_token = some at_)
    (hat' : at_ ≠ "")
    (hclaims : c.getClaims at_ = .ok claims)
    (hsub : JsonVal.strictEqU (lookupField (toFields claims) "sub")
      (lookupField pf "sub") = false) :
    _processClaims settings c state response ms =
      (.error (.thrown "sub from user info endpoint does not match sub in id_token"
        (filteredResponse settings response)), ms, [.getClaims at_]) ∧
    (filteredResponse settings response).state = response.state := by
  have hsub' : JsonVal.strictEqU (lookupField (toFields claims) "sub")
      (lookupField (_filterProtocolClaims settings response.profile) "sub") = false := by
    rw [hprof, filterProtocolClaims_preserves_sub settings pf hnd]
    exact hsub
  constructor
  · have hcond : (state.skipUserInfo != some true && settings.loadUserInfo
        && truthyS response.access_token) = true := by
      simp [hskip, hload, hat, truthyS, hat']
    have hgetd : response.access_token.getD "" = at_ := by
      rw [hat]
      rfl
    have hsub2 : JsonVal.strictEqU (lookupField (toFields claims) "sub")
        (lookupField (toFields (JsonVal.obj
          (_filterProtocolClaims settings response.profile))) "sub") = false := hsub'
    unfold _processClaims
    rw [hoidc]
    simp only [if_true]
    rw [hcond]
    simp only [if_true]
    rw [hgetd, hclaims]
    dsimp only
    simp only [Option.getD_some]
    simp only [hsub2]
    rfl
  · rfl

/-- Witness for C6: id-token sub "abc" against user-info sub "xyz" with the
stub collaborator; the subject-mismatch failure carries the filtered profile
and the opaque data. -/
theorem userinfo_sub_mismatch_fails_witness :
    _processClaims settingsFx collabClaimsFx signinStateFx responseClaimsFx msEmpty =
      (.error (.thrown "sub from user info endpoint does not match sub in id_token"
        (filteredResponse settingsFx responseClaimsFx)), msEmpty,
       [.getClaims "tok"]) ∧
    (filteredResponse settingsFx responseClaimsFx).state = responseClaimsFx.state :=
  userinfo_sub_mismatch_fails settingsFx collabClaimsFx signinStateFx responseClaimsFx
    msEmpty [("sub", .str "abc")] "tok" (.obj [("sub", .str "xyz")])
    rfl (by simp) rfl (by simp [signinStateFx]) rfl rfl (by decide) rfl rfl

/-! ### C7: the claim-merge laws -/

/-- Counterexample to C7 as stated: merging the distinct scalar 1 into an
existing falsy scalar 0 under a claim name with deep-merge disabled simply
overwrites it (the `!result[name]` falsy check fires), instead of yielding
the 2-element sequence of both values. -/
theorem merge_distinct_scalars_counterexample :
    _mergeClaims false [("a", .num 0)] [("a", .num 1)] = [("a", .num 1)] ∧
    _mergeClaims false [("a", .num 0)] [("a", .num 1)]
      ≠ [("a", .arr [.num 0, .num 1])] := by
  have h : _mergeClaims false [("a", .num 0)] [("a", .num 1)] = [("a", .num 1)] := by
    simp [_mergeClaims, mergeFields, mergeValues, mergeEntry, jsAssign, setField,
      toValues, lookupField, JsonVal.truthy]
  refine ⟨h, ?_⟩
  rw [h]
  simp

/-- C7 amended: merging two distinct scalars for one name with deep-merge
disabled yields the 2-element sequence of both in first-seen order provided
the existing scalar is truthy (a falsy existing value is overwritten, per
the counterexample); merging two object values for one name with deep-merge
enabled yields their recursive merge; merging an element that is already
strictly-equal-present in a sequence-valued claim leaves the sequence
unchanged. -/
theorem merge_claims_spec :
    (∀ (name : String) (v1 v2 : JsonVal),
       v1.isObjectType = false → v2.isObjectType = false →
       v1.truthy = true → JsonVal.strictEq v1 v2 = false →
       _mergeClaims false [(name, v1)] [(name, v2)] = [(name, .arr [v1, v2])]) ∧
    (∀ (name : String) (f1 f2 : JsonObj),
       _mergeClaims true [(name, .obj f1)] [(name, .obj f2)]
         = [(name, .obj (_mergeClaims true f1 f2))]) ∧
    (∀ (mc : Bool) (name : String) (xs : List JsonVal) (v : JsonVal),
       xs.any (fun x => JsonVal.strictEq x v) = true →
       _mergeClaims mc [(name, .arr xs)] [(name, v)] = [(name, .arr xs)]) := by
  refine ⟨?_, ?_, ?_⟩
  · intro name v1 v2 h1 h2 h3 h4
    cases v1 <;> cases v2 <;>
      simp_all [_mergeClaims, mergeFields, mergeValues, mergeEntry, jsAssign,
        setField, toValues, lookupField, JsonVal.truthy, JsonVal.isObjectType,
        JsonVal.strictEq]
  · intro name f1 f2
    simp [_mergeClaims, mergeFields, mergeValues, mergeEntry, jsAssign, setField,
      toValues, lookupField, JsonVal.truthy, JsonVal.isObjectType, JsonVal.strictEq,
      toFields]
  · intro mc name xs v h
    cases v <;>
      first
      | (simp [_mergeClaims, mergeFields, mergeValues, mergeEntry, jsAssign, setField,
          toValues, lookupField, JsonVal.truthy, h]
         done)
      | (exfalso
         simp only [List.any_eq_true] at h
         obtain ⟨x, hx, hstr⟩ := h
         cases x <;> simp [JsonVal.strictEq] at hstr)

/-- Witness for C7 amended: strings "1" and "2" combine into the sequence
["1","2"]; objects deep-merge recursively; a strictly-equal scalar already
present in a sequence is not duplicated. -/
theorem merge_claims_spec_witness :
    _mergeClaims false [("a", .str "1")] [("a", .str "2")]
      = [("a", .arr [.str "1", .str "2"])] ∧
    _mergeClaims true [("a", .obj [("x", .str "1")])] [("a", .obj [("y", .str "2")])]
      = [("a", .obj (_mergeClaims true [("x", .str "1")] [("y", .str "2")]))] ∧
    _mergeClaims false [("a", .arr [.str "v"])] [("a", .str "v")]
      = [("a", .arr [.str "v"])] :=
  ⟨merge_claims_spec.1 "a" (.str "1") (.str "2") rfl rfl rfl rfl,
   merge_claims_spec.2.1 "a" [("x", .str "1")] [("y", .str "2")],
   merge_claims_spec.2.2 false "a" [.str "v"] (.str "v") rfl⟩

/-! ### C8: folding the token-exchange result -/

/-- Counterexample to C8 as stated: the non-empty server value "0" for
expires_in does not overwrite the prior value (parseInt yields the falsy 0),
so first-non-empty-wins does not hold for expires_in. -/
theorem fold_expires_in_counterexample :
    trZeroFx.expires_in = some "0" ∧ ("0" : String) ≠ "" ∧
    (foldTokenResponse trZeroFx rExpFx).expires_in = some 42 ∧
    (foldTokenResponse trZeroFx rExpFx).expires_in ≠ some 0 := by
  refine ⟨rfl, by decide, rfl, by decide⟩

/-- C8 amended: each of the eight string fields (error, error_description,
error_uri, id_token, session_state, access_token, token_type, scope) is
overwritten by the server value exactly when it is a non-empty string;
expires_in is first parsed with parseInt and is overwritten by the parsed
number exactly when that parse yields a nonzero integer — an absent,
non-numeric, or zero-valued expires_in keeps the prior value. -/
theorem fold_token_response_spec :
    (∀ (tr : TokenExchangeResponse) (r : SigninResponse) (s : String), s ≠ "" →
       (tr.error = some s → (foldTokenResponse tr r).error = some s) ∧
       (tr.error_description = some s →
          (foldTokenResponse tr r).error_description = some s) ∧
       (tr.error_uri = some s → (foldTokenResponse tr r).error_uri = some s) ∧
       (tr.id_token = some s → (foldTokenResponse tr r).id_token = some s) ∧
       (tr.session_state = some s → (foldTokenResponse tr r).session_state = some s) ∧
       (tr.access_token = some s → (foldTokenResponse tr r).access_token = some s) ∧
       (tr.token_type = some s → (foldTokenResponse tr r).token_type = some s) ∧
       (tr.scope = some s → (foldTokenResponse tr r).scope = some s)) ∧
    (∀ (tr : TokenExchangeResponse) (r : SigninResponse),
       ((tr.error = none ∨ tr.error = some "") →
          (foldTokenResponse tr r).error = r.error) ∧
       ((tr.error_description = none ∨ tr.error_description = some "") →
          (foldTokenResponse tr r).error_description = r.error_description) ∧
       ((tr.error_uri = none ∨ tr.error_uri = some "") →
          (foldTokenResponse tr r).error_uri = r.error_uri) ∧
       ((tr.id_token = none ∨ tr.id_token = some "") →
          (foldTokenResponse tr r).id_token = r.id_token) ∧
       ((tr.session_state = none ∨ tr.session_state = some "") →
          (foldTokenResponse tr r).session_state = r.session_state) ∧
       ((tr.access_token = none ∨ tr.access_token = some "") →
          (foldTokenResponse tr r).access_token = r.access_token) ∧
       ((tr.token_type = none ∨ tr.token_type = some "") →
          (foldTokenResponse tr r).token_type = r.token_type) ∧
       ((tr.scope = none ∨ tr.scope = some "") →
          (foldTokenResponse tr r).scope = r.scope)) ∧
    (∀ (tr : TokenExchangeResponse) (r : SigninResponse) (s : String) (n : Int),
       tr.expires_in = some s → parseIntJS s = some n → n ≠ 0 →
       (foldTokenResponse tr r).expires_in = some n) ∧
    (∀ (tr : TokenExchangeResponse) (r : SigninResponse),
       (tr.expires_in = none ∨ ∃ s, tr.expires_in = some s ∧
          (parseIntJS s = none ∨ parseIntJS s = some 0)) →
       (foldTokenResponse tr r).expires_in = r.expires_in) := by
  refine ⟨?_, ?_, ?_, ?_⟩
  · intro tr r s hs
    refine ⟨?_, ?_, ?_, ?_, ?_, ?_, ?_, ?_⟩ <;>
      (intro h; simp [foldTokenResponse, jsOrS, truthyS, h, hs])
  · intro tr r
    refine ⟨?_, ?_, ?_, ?_, ?_, ?_, ?_, ?_⟩ <;>
      (rintro (h | h) <;> simp [foldTokenResponse, jsOrS, truthyS, h])
  · intro tr r s n hs hp hn
    simp [foldTokenResponse, hs, hp, hn]
  · intro tr r h
    rcases h with h | ⟨s, hs, hp | hp⟩ <;> simp [foldTokenResponse, *]

/-- Witness for C8 amended: a non-empty scope overwrites, an empty error
keeps the prior value, expires_in "120" overwrites with 120 and "0" keeps
the prior value. -/
theorem fold_token_response_spec_witness :
    (foldTokenResponse { trZeroFx with scope := some "openid" } rExpFx).scope
      = some "openid" ∧
    (foldTokenResponse { trZeroFx with error := some "" } rExpFx).error
      = rExpFx.error ∧
    (foldTokenResponse { trZeroFx with expires_in := some "120" } rExpFx).expires_in
      = some 120 ∧
    (foldTokenResponse trZeroFx rExpFx).expires_in = rExpFx.expires_in :=
  ⟨((fold_token_response_spec.1 { trZeroFx with scope := some "openid" } rExpFx
      "openid" (by decide)).2.2.2.2.2.2.2) rfl,
   ((fold_token_response_spec.2.1 { trZeroFx with error := some "" } rExpFx).1)
      (Or.inr rfl),
   fold_token_response_spec.2.2.1 { trZeroFx with expires_in := some "120" } rExpFx
      "120" 120 rfl (by decide) (by decide),
   fold_token_response_spec.2.2.2 trZeroFx rExpFx
      (Or.inr ⟨"0", rfl, Or.inr (by decide)⟩)⟩

end Theorems

end Oidc
